import Mathlib

/-!
Verification of the red-black tree ADT (`redblack.c`).

The C code works on a mutable heap of nodes linked by `left`, `right` and
`parent` pointers, with one shared mutable sentinel node (`s_null_node`,
written `rb_null`) standing in for null children and for the parent of the
root.  We embed that heap shallowly: a node is a record of two child
indices, a parent index, a color and an `Int` key and value; a tree is the
list of nodes (index 0 is the sentinel), a free-list head (index 0 meaning
the empty free list, as the sentinel is never freed), a root index, and two
booleans recording whether the key/value release callbacks are configured.
Release callbacks are observed through an event log; the comparator
`key_compare` (with its folded-in `key_compare_data`) is a parameter
`cmp : Int → Int → Int` used through its sign, exactly as the C uses the
`strcmp`-style result.  `while`/`until` loops that walk parent pointers are
embedded as fuel-indexed recursions returning `Option`; `none` means the
fuel ran out, and every theorem below either supplies concrete fuel or is
stated for an arbitrary fuel value.  Each definition transliterates its C
function statement by statement, re-reading fields from the store exactly
where the C re-reads them.
-/

inductive RBColor where
  | red : RBColor
  | black : RBColor
deriving DecidableEq, Repr

/-- One heap node: `struct _RBTreeNode` (left, right, parent, color, key, value). -/
structure RBNode where
  left : Nat
  right : Nat
  parent : Nat
  color : RBColor
  key : Int
  value : Int
deriving DecidableEq, Repr

/-- The sentinel `s_null_node`: self-linked, BLACK, null key and value (modelled as 0). -/
def nullNode : RBNode := ⟨0, 0, 0, RBColor.black, 0, 0⟩

/-- Index of the sentinel (`rb_null` = `&s_null_node`). -/
def rb_null : Nat := 0

/-- `struct _RBTree` together with the node heap and the free list.  In the C
the heap is the process allocator and `node_free_list` is a module-global;
we carry both in the tree value (the claims below never exercise cross-tree
sharing of the pool).  `key_release`/`value_release` record whether the
corresponding callback is configured (non-null). -/
structure RBTree where
  nodes : List RBNode
  free_list : Nat
  root : Nat
  key_release : Bool
  value_release : Bool
deriving DecidableEq, Repr

/-- Release-callback invocations, observed as events. -/
inductive RBEvent where
  | keyRelease : Int → RBEvent
  | valueRelease : Int → RBEvent
deriving DecidableEq, Repr

/-- Dereference a node pointer (index). -/
def getNode (t : RBTree) (i : Nat) : RBNode := t.nodes.getD i nullNode

/-- Store a node record at an index. -/
def setNode (t : RBTree) (i : Nat) (n : RBNode) : RBTree :=
  { t with nodes := t.nodes.set i n }

/-- `rb_tree_node_new`: pop the free list or grow the heap, then initialize
all fields (children to `rb_null`). -/
def rb_tree_node_new (t : RBTree) (key value : Int) (parent : Nat) (color : RBColor) :
    RBTree × Nat :=
  let (t, node) :=
    if t.free_list ≠ 0 then
      ({ t with free_list := (getNode t t.free_list).left }, t.free_list)
    else
      ({ t with nodes := t.nodes ++ [nullNode] }, t.nodes.length)
  (setNode t node ⟨rb_null, rb_null, parent, color, key, value⟩, node)

/-- `rb_tree_new_full`: fresh tree, root is the sentinel, empty free list. -/
def rb_tree_new_full (kr vr : Bool) : RBTree :=
  { nodes := [nullNode], free_list := 0, root := rb_null,
    key_release := kr, value_release := vr }

/-- `rb_tree_new`: delegates to `rb_tree_new_full` with no release callbacks
(the comparator is a parameter of each operation in this embedding). -/
def rb_tree_new : RBTree := rb_tree_new_full false false

/-- `rb_tree_new_with_data`: same as `rb_tree_new` (the comparator context is
folded into the comparator parameter). -/
def rb_tree_new_with_data : RBTree := rb_tree_new_full false false

/-- `rb_tree_rotate_left`, statement by statement. -/
def rb_tree_rotate_left (t0 : RBTree) (x : Nat) : RBTree :=
  let y := (getNode t0 x).right
  -- x->right = y->left
  let t1 := setNode t0 x { getNode t0 x with right := (getNode t0 y).left }
  -- if (y->left != rb_null) y->left->parent = x
  let t2 :=
    if (getNode t1 y).left ≠ rb_null then
      let z := (getNode t1 y).left
      setNode t1 z { getNode t1 z with parent := x }
    else t1
  -- y->parent = x->parent
  let t3 := setNode t2 y { getNode t2 y with parent := (getNode t2 x).parent }
  -- if (x->parent == rb_null) root = y else x->parent->{left,right} = y
  let t4 :=
    if (getNode t3 x).parent = rb_null then { t3 with root := y }
    else
      let p := (getNode t3 x).parent
      if x = (getNode t3 p).left then setNode t3 p { getNode t3 p with left := y }
      else setNode t3 p { getNode t3 p with right := y }
  -- y->left = x
  let t5 := setNode t4 y { getNode t4 y with left := x }
  -- x->parent = y
  setNode t5 x { getNode t5 x with parent := y }

/-- `rb_tree_rotate_right`, statement by statement.  Note the source (lines
291-294) assigns `y->left = y->right` and guards on `x->right`, rather than
moving `x->right` under `y`; the transliteration preserves that behavior
exactly. -/
def rb_tree_rotate_right (t0 : RBTree) (y : Nat) : RBTree :=
  let x := (getNode t0 y).left
  -- y->left = y->right
  let t1 := setNode t0 y { getNode t0 y with left := (getNode t0 y).right }
  -- if (x->right != rb_null) y->right->parent = y
  let t2 :=
    if (getNode t1 x).right ≠ rb_null then
      let z := (getNode t1 y).right
      setNode t1 z { getNode t1 z with parent := y }
    else t1
  -- x->parent = y->parent
  let t3 := setNode t2 x { getNode t2 x with parent := (getNode t2 y).parent }
  -- if (y->parent == rb_null) root = x else y->parent->{left,right} = x
  let t4 :=
    if (getNode t3 y).parent = rb_null then { t3 with root := x }
    else
      let p := (getNode t3 y).parent
      if y = (getNode t3 p).left then setNode t3 p { getNode t3 p with left := x }
      else setNode t3 p { getNode t3 p with right := x }
  -- x->right = y
  let t5 := setNode t4 x { getNode t4 x with right := y }
  -- y->parent = x
  setNode t5 y { getNode t5 y with parent := x }

/-- The descent loop of `rb_tree_find` (lines 339-353): walk down from
`iter`, tracking `iters_parent`; stop at the sentinel or on a comparator hit.
Returns `(iter, iters_parent, found)`. -/
def rb_tree_find_loop (cmp : Int → Int → Int) (t : RBTree) (key : Int) :
    Nat → Nat → Nat → Option (Nat × Nat × Bool)
  | 0, _, _ => none
  | fuel + 1, iter, iters_parent =>
    if iter = rb_null then some (iter, iters_parent, false)
    else
      let c := cmp key (getNode t iter).key
      if c < 0 then rb_tree_find_loop cmp t key fuel (getNode t iter).left iter
      else if c = 0 then some (iter, iter, true)
      else rb_tree_find_loop cmp t key fuel (getNode t iter).right iter

/-- The insertion fixup loop of `rb_tree_find` (lines 405-462): climb from
the freshly inserted RED node, recoloring past RED uncles and otherwise
rotating at the grandparent (via the rotation functions above, including the
faithful `rb_tree_rotate_right`). -/
def rb_tree_insert_fixup (t : RBTree) (iter : Nat) : Nat → Option RBTree
  | 0 => none
  | fuel + 1 =>
    if iter ≠ t.root ∧ (getNode t (getNode t iter).parent).color = RBColor.red then
      if (getNode t iter).parent = (getNode t (getNode t (getNode t iter).parent).parent).left then
        let u := (getNode t (getNode t (getNode t iter).parent).parent).right
        if (getNode t u).color = RBColor.red then
          let p := (getNode t iter).parent
          let t := setNode t p { getNode t p with color := RBColor.black }
          let t := setNode t u { getNode t u with color := RBColor.black }
          let g := (getNode t (getNode t iter).parent).parent
          let t := setNode t g { getNode t g with color := RBColor.red }
          rb_tree_insert_fixup t ((getNode t (getNode t iter).parent).parent) fuel
        else
          let (t, iter) :=
            if iter = (getNode t (getNode t iter).parent).right then
              let i2 := (getNode t iter).parent
              (rb_tree_rotate_left t i2, i2)
            else (t, iter)
          let p := (getNode t iter).parent
          let t := setNode t p { getNode t p with color := RBColor.black }
          let g := (getNode t (getNode t iter).parent).parent
          let t := setNode t g { getNode t g with color := RBColor.red }
          let t := rb_tree_rotate_right t ((getNode t (getNode t iter).parent).parent)
          rb_tree_insert_fixup t iter fuel
      else
        let u := (getNode t (getNode t (getNode t iter).parent).parent).left
        if (getNode t u).color = RBColor.red then
          let p := (getNode t iter).parent
          let t := setNode t p { getNode t p with color := RBColor.black }
          let t := setNode t u { getNode t u with color := RBColor.black }
          let g := (getNode t (getNode t iter).parent).parent
          let t := setNode t g { getNode t g with color := RBColor.red }
          rb_tree_insert_fixup t ((getNode t (getNode t iter).parent).parent) fuel
        else
          let (t, iter) :=
            if iter = (getNode t (getNode t iter).parent).left then
              let i2 := (getNode t iter).parent
              (rb_tree_rotate_right t i2, i2)
            else (t, iter)
          let p := (getNode t iter).parent
          let t := setNode t p { getNode t p with color := RBColor.black }
          let g := (getNode t (getNode t iter).parent).parent
          let t := setNode t g { getNode t g with color := RBColor.red }
          let t := rb_tree_rotate_left t ((getNode t (getNode t iter).parent).parent)
          rb_tree_insert_fixup t iter fuel
    else some t

/-- `rb_tree_find` (lines 325-468): one traversal serving lookup, insert and
replace.  Returns the resulting tree, the returned node index, and the
release events its found-key branches emit. -/
def rb_tree_find (cmp : Int → Int → Int) (t : RBTree) (key value : Int)
    (insert replace : Bool) (fuel : Nat) : Option (RBTree × Nat × List RBEvent) :=
  match rb_tree_find_loop cmp t key fuel t.root rb_null with
  | none => none
  | some (iter, iters_parent, found) =>
    if found && insert && replace then
      let ev := (if t.key_release then [RBEvent.keyRelease (getNode t iter).key] else []) ++
                (if t.value_release then [RBEvent.valueRelease (getNode t iter).value] else [])
      some (setNode t iter { getNode t iter with key := key, value := value }, iter, ev)
    else if found && insert then
      let ev := (if t.key_release then [RBEvent.keyRelease key] else []) ++
                (if t.value_release then [RBEvent.valueRelease (getNode t iter).value] else [])
      some (setNode t iter { getNode t iter with value := value }, iter, ev)
    else if found || !insert then
      some (t, iter, [])
    else
      let (t, new_node) := rb_tree_node_new t key value iters_parent RBColor.red
      let t :=
        if iters_parent = rb_null then { t with root := new_node }
        else if cmp (getNode t new_node).key (getNode t iters_parent).key < 0 then
          setNode t iters_parent { getNode t iters_parent with left := new_node }
        else
          setNode t iters_parent { getNode t iters_parent with right := new_node }
      match rb_tree_insert_fixup t new_node fuel with
      | none => none
      | some t =>
        let r := t.root
        some (setNode t r { getNode t r with color := RBColor.black }, new_node, [])

/-- `rb_tree_insert`: `rb_tree_find(tree, key, value, true, false)`. -/
def rb_tree_insert (cmp : Int → Int → Int) (t : RBTree) (key value : Int) (fuel : Nat) :
    Option (RBTree × List RBEvent) :=
  (rb_tree_find cmp t key value true false fuel).map fun (t, _, ev) => (t, ev)

/-- `rb_tree_replace`: `rb_tree_find(tree, key, value, true, true)`. -/
def rb_tree_replace (cmp : Int → Int → Int) (t : RBTree) (key value : Int) (fuel : Nat) :
    Option (RBTree × List RBEvent) :=
  (rb_tree_find cmp t key value true true fuel).map fun (t, _, ev) => (t, ev)

/-- `rb_tree_lookup`: find without insertion; `some v` when the node is
found, `none` for the C's null return. -/
def rb_tree_lookup (cmp : Int → Int → Int) (t : RBTree) (key : Int) (fuel : Nat) :
    Option (Option Int) :=
  (rb_tree_find cmp t key 0 false false fuel).map fun (_, node, _) =>
    if node ≠ rb_null then some (getNode t node).value else none

/-- `rb_tree_lookup_extended`: the two out-pointers are modelled by the booleans
saying whether they are non-null; the result's two `Option Int` components are
what was written through them (`none` = not written).  The overall `none`
result models the write through a null `value` pointer the source performs
when `orig_key` is non-null but `value` is null (its second guard, line 600,
tests `orig_key`). -/
def rb_tree_lookup_extended (cmp : Int → Int → Int) (t : RBTree) (key : Int)
    (orig_key_given value_given : Bool) (fuel : Nat) :
    Option (Bool × Option Int × Option Int) :=
  match rb_tree_find cmp t key 0 false false fuel with
  | none => none
  | some (_, node, _) =>
    if node ≠ rb_null then
      let ok := if orig_key_given then some (getNode t node).key else none
      if orig_key_given && !value_given then none
      else some (true, ok, if orig_key_given then some (getNode t node).value else none)
    else some (false, none, none)

/-- `rb_tree_node_count` (lines 502-516): one for the node, plus recursive
counts of the non-sentinel children. -/
def rb_tree_node_count (t : RBTree) : Nat → Nat → Option Nat
  | _, 0 => none
  | node, fuel + 1 =>
    match (if (getNode t node).left ≠ rb_null then
             rb_tree_node_count t (getNode t node).left fuel else some 0) with
    | none => none
    | some c1 =>
      match (if (getNode t node).right ≠ rb_null then
               rb_tree_node_count t (getNode t node).right fuel else some 0) with
      | none => none
      | some c2 => some (1 + c1 + c2)

/-- `rb_tree_size`: node count of the root, 0 for the empty tree. -/
def rb_tree_size (t : RBTree) (fuel : Nat) : Option Nat :=
  if t.root ≠ rb_null then rb_tree_node_count t t.root fuel else some 0

/-- `rb_tree_node_height` (lines 534-550). -/
def rb_tree_node_height (t : RBTree) : Nat → Nat → Option Nat
  | _, 0 => none
  | node, fuel + 1 =>
    if node ≠ rb_null then
      match (if (getNode t node).left ≠ rb_null then
               rb_tree_node_height t (getNode t node).left fuel else some 0) with
      | none => none
      | some lh =>
        match (if (getNode t node).right ≠ rb_null then
                 rb_tree_node_height t (getNode t node).right fuel else some 0) with
        | none => none
        | some rh => some (max lh rh + 1)
    else some 0

/-- `rb_tree_height`: height of the root, 0 for the empty tree. -/
def rb_tree_height (t : RBTree) (fuel : Nat) : Option Nat :=
  if t.root ≠ rb_null then rb_tree_node_height t t.root fuel else some 0

/-- `rb_tree_node_map` (lines 616-634), instrumented with the list of
`(key, value)` pairs passed to the visitor, in invocation order.  The bool is
the C return value: `false` once the visitor signalled stop. -/
def rb_tree_node_map (f : Int → Int → Bool) (t : RBTree) :
    Nat → Nat → Option (Bool × List (Int × Int))
  | _, 0 => none
  | node, fuel + 1 =>
    let visitSelfRight : List (Int × Int) → Option (Bool × List (Int × Int)) := fun acc =>
      if f (getNode t node).key (getNode t node).value then
        if (getNode t node).right ≠ rb_null then
          match rb_tree_node_map f t (getNode t node).right fuel with
          | none => none
          | some (b, vs) =>
            some (b, acc ++ ((getNode t node).key, (getNode t node).value) :: vs)
        else some (true, acc ++ [((getNode t node).key, (getNode t node).value)])
      else some (false, acc ++ [((getNode t node).key, (getNode t node).value)])
    if (getNode t node).left ≠ rb_null then
      match rb_tree_node_map f t (getNode t node).left fuel with
      | none => none
      | some (false, vs) => some (false, vs)
      | some (true, vs) => visitSelfRight vs
    else visitSelfRight []

/-- `rb_tree_map` (lines 643-652): visit log of the whole tree; empty when
the root is the sentinel. -/
def rb_tree_map (f : Int → Int → Bool) (t : RBTree) (fuel : Nat) :
    Option (List (Int × Int)) :=
  if t.root ≠ rb_null then (rb_tree_node_map f t t.root fuel).map Prod.snd
  else some []

/-- `rb_tree_node_release` (lines 139-159): release the right subtree, then
the left subtree, then notify (the source passes `node->key` to both
callbacks, lines 148 and 151), then push the node on the free list. -/
def rb_tree_node_release (kr vr : Bool) :
    RBTree → Nat → Nat → Option (RBTree × List RBEvent)
  | _, _, 0 => none
  | t, node, fuel + 1 =>
    if node ≠ rb_null then
      match rb_tree_node_release kr vr t (getNode t node).right fuel with
      | none => none
      | some (t, ev1) =>
        match rb_tree_node_release kr vr t (getNode t node).left fuel with
        | none => none
        | some (t, ev2) =>
          let ev3 := (if kr then [RBEvent.keyRelease (getNode t node).key] else []) ++
                     (if vr then [RBEvent.valueRelease (getNode t node).key] else [])
          let t := setNode t node { getNode t node with left := t.free_list }
          some ({ t with free_list := node }, ev1 ++ ev2 ++ ev3)
    else some (t, [])

/-- `rb_tree_release` (lines 221-230): release every node under the root
(the final `release(tree)` of the handle itself has no observable content in
this embedding beyond the returned heap). -/
def rb_tree_release (t : RBTree) (fuel : Nat) : Option (RBTree × List RBEvent) :=
  rb_tree_node_release t.key_release t.value_release t t.root fuel

/-- First loop of `rb_tree_node_successor`: leftmost node under `iter`. -/
def rb_tree_successor_down (t : RBTree) : Nat → Nat → Option Nat
  | 0, _ => none
  | fuel + 1, iter =>
    if (getNode t iter).left = rb_null then some iter
    else rb_tree_successor_down t fuel (getNode t iter).left

/-- Second loop of `rb_tree_node_successor`: climb while the node is a right
child, then return the parent reached. -/
def rb_tree_successor_up (t : RBTree) : Nat → Nat → Nat → Option Nat
  | 0, _, _ => none
  | fuel + 1, node, iter =>
    if iter = rb_null ∨ node ≠ (getNode t iter).right then some iter
    else rb_tree_successor_up t fuel iter (getNode t iter).parent

/-- `rb_tree_node_successor` (lines 658-685). -/
def rb_tree_node_successor (t : RBTree) (node : Nat) (fuel : Nat) : Option Nat :=
  if (getNode t node).right ≠ rb_null then
    rb_tree_successor_down t fuel (getNode t node).right
  else
    rb_tree_successor_up t fuel node (getNode t node).parent

/-- `rb_tree_node_remove_restore` (lines 691-756): the deletion fixup loop,
transliterated case by case with field re-reads at each C statement. -/
def rb_tree_node_remove_restore (t : RBTree) (x : Nat) : Nat → Option RBTree
  | 0 => none
  | fuel + 1 =>
    if x ≠ t.root ∧ (getNode t x).color = RBColor.black then
      if x = (getNode t (getNode t x).parent).left then
        let w := (getNode t (getNode t x).parent).right
        let (t, w) :=
          if (getNode t w).color = RBColor.red then
            let t := setNode t w { getNode t w with color := RBColor.black }
            let p := (getNode t x).parent
            let t := setNode t p { getNode t p with color := RBColor.red }
            let t := rb_tree_rotate_left t p
            (t, (getNode t (getNode t x).parent).right)
          else (t, w)
        if (getNode t (getNode t w).left).color = RBColor.black ∧
           (getNode t (getNode t w).right).color = RBColor.black then
          let t := setNode t w { getNode t w with color := RBColor.red }
          rb_tree_node_remove_restore t ((getNode t x).parent) fuel
        else
          let (t, w) :=
            if (getNode t (getNode t w).right).color = RBColor.black then
              let wl := (getNode t w).left
              let t := setNode t wl { getNode t wl with color := RBColor.black }
              let t := setNode t w { getNode t w with color := RBColor.red }
              let t := rb_tree_rotate_right t w
              (t, (getNode t (getNode t x).parent).right)
            else (t, w)
          let t := setNode t w { getNode t w with color := (getNode t (getNode t x).parent).color }
          let p := (getNode t x).parent
          let t := setNode t p { getNode t p with color := RBColor.black }
          let wr := (getNode t w).right
          let t := setNode t wr { getNode t wr with color := RBColor.black }
          let t := rb_tree_rotate_left t ((getNode t x).parent)
          rb_tree_node_remove_restore t t.root fuel
      else
        let w := (getNode t (getNode t x).parent).left
        let (t, w) :=
          if (getNode t w).color = RBColor.red then
            let t := setNode t w { getNode t w with color := RBColor.black }
            let p := (getNode t x).parent
            let t := setNode t p { getNode t p with color := RBColor.red }
            let t := rb_tree_rotate_right t p
            (t, (getNode t (getNode t x).parent).left)
          else (t, w)
        if (getNode t (getNode t w).right).color = RBColor.black ∧
           (getNode t (getNode t w).left).color = RBColor.black then
          let t := setNode t w { getNode t w with color := RBColor.red }
          rb_tree_node_remove_restore t ((getNode t x).parent) fuel
        else
          let (t, w) :=
            if (getNode t (getNode t w).left).color = RBColor.black then
              let wr := (getNode t w).right
              let t := setNode t wr { getNode t wr with color := RBColor.black }
              let t := setNode t w { getNode t w with color := RBColor.red }
              let t := rb_tree_rotate_left t w
              (t, (getNode t (getNode t x).parent).left)
            else (t, w)
          let t := setNode t w { getNode t w with color := (getNode t (getNode t x).parent).color }
          let p := (getNode t x).parent
          let t := setNode t p { getNode t p with color := RBColor.black }
          let wl := (getNode t w).left
          let t := setNode t wl { getNode t wl with color := RBColor.black }
          let t := rb_tree_rotate_right t ((getNode t x).parent)
          rb_tree_node_remove_restore t t.root fuel
    else
      some (setNode t x { getNode t x with color := RBColor.black })

/-- `rb_tree_node_remove` (lines 762-807): choose the physical victim `y`
(the node itself or its in-order successor), splice it out through its single
child `x` (possibly the sentinel, whose parent field is scratch space), copy
the successor key onto `z` (the source copies only `z->key`, line 787), run
the fixup when the victim was BLACK, emit the notify events read from the
victim slot, and push the victim on the free list. -/
def rb_tree_node_remove (t : RBTree) (z : Nat) (notify : Bool) (fuel : Nat) :
    Option (RBTree × List RBEvent) :=
  match (if (getNode t z).left = rb_null ∨ (getNode t z).right = rb_null then some z
         else rb_tree_node_successor t z fuel) with
  | none => none
  | some y =>
    let x := if (getNode t y).left ≠ rb_null then (getNode t y).left else (getNode t y).right
    -- x->parent = y->parent
    let t := setNode t x { getNode t x with parent := (getNode t y).parent }
    -- if (y->parent == rb_null) root = x else y->parent->{left,right} = x
    let t :=
      if (getNode t y).parent = rb_null then { t with root := x }
      else
        let p := (getNode t y).parent
        if y = (getNode t p).left then setNode t p { getNode t p with left := x }
        else setNode t p { getNode t p with right := x }
    -- unless (y == z) z->key = y->key
    let t := if y ≠ z then setNode t z { getNode t z with key := (getNode t y).key } else t
    match (if (getNode t y).color = RBColor.black then rb_tree_node_remove_restore t x fuel
           else some t) with
    | none => none
    | some t =>
      let ev :=
        if notify then
          (if t.key_release then [RBEvent.keyRelease (getNode t y).key] else []) ++
          (if t.value_release then [RBEvent.valueRelease (getNode t y).value] else [])
        else []
      let t := setNode t y { getNode t y with left := t.free_list }
      some ({ t with free_list := y }, ev)

/-- `rb_tree_remove` (lines 814-824): lookup-only find, then remove with
notification; no-op when the key is absent. -/
def rb_tree_remove (cmp : Int → Int → Int) (t : RBTree) (key : Int) (fuel : Nat) :
    Option (RBTree × List RBEvent) :=
  match rb_tree_find cmp t key 0 false false fuel with
  | none => none
  | some (t, node, _) =>
    if node ≠ rb_null then rb_tree_node_remove t node true fuel
    else some (t, [])

/-- `rb_tree_steal` (lines 831-841): like `rb_tree_remove` but without
notification. -/
def rb_tree_steal (cmp : Int → Int → Int) (t : RBTree) (key : Int) (fuel : Nat) :
    Option (RBTree × List RBEvent) :=
  match rb_tree_find cmp t key 0 false false fuel with
  | none => none
  | some (t, node, _) =>
    if node ≠ rb_null then rb_tree_node_remove t node false fuel
    else some (t, [])

/-- Pure binary trees of `(key, value)` pairs: the abstraction of a heap
subtree, used to state traversal properties of `rb_tree_map`. -/
inductive FTree where
  | nil : FTree
  | node : FTree → Int → Int → FTree → FTree
deriving DecidableEq, Repr

/-- Abstraction function: read the subtree under index `i` out of the heap,
following `left`/`right` fields, with fuel against cyclic stores. -/
def toFTree (t : RBTree) : Nat → Nat → Option FTree
  | _, 0 => none
  | i, fuel + 1 =>
    if i = rb_null then some FTree.nil
    else
      match toFTree t (getNode t i).left fuel, toFTree t (getNode t i).right fuel with
      | some l, some r => some (FTree.node l (getNode t i).key (getNode t i).value r)
      | _, _ => none

/-- In-order list of `(key, value)` pairs of an abstracted subtree. -/
def inorderPairs : FTree → List (Int × Int)
  | FTree.nil => []
  | FTree.node l k v r => inorderPairs l ++ (k, v) :: inorderPairs r

/-- Specification of an early-exit in-order visit on the in-order list: the
pairs visited are an initial segment of the list, cut just after the first
pair on which the visitor returns `false`; the boolean is `true` exactly when
no pair stopped the visit. -/
def mapVisitList (f : Int → Int → Bool) : List (Int × Int) → Bool × List (Int × Int)
  | [] => (true, [])
  | p :: rest =>
    if f p.1 p.2 then
      let r := mapVisitList f rest
      (r.1, p :: r.2)
    else (false, [p])

/-- An integer comparator in the `strcmp` style, used by the concrete runs. -/
def cmpI : Int → Int → Int := fun a b => a - b

/-- Sequencing of tree operations, accumulating release events. -/
def bindT (o : Option (RBTree × List RBEvent))
    (f : RBTree → Option (RBTree × List RBEvent)) : Option (RBTree × List RBEvent) :=
  match o with
  | none => none
  | some (t, ev) =>
    match f t with
    | none => none
    | some (t2, ev2) => some (t2, ev ++ ev2)

/-- Insert the keys in order, each with value `10 * key`, fuel 64. -/
def insSeq (t : RBTree) (ks : List Int) : Option (RBTree × List RBEvent) :=
  ks.foldl (fun acc k => bindT acc fun t => rb_tree_insert cmpI t k (k * 10) 64) (some (t, []))

/-- Concrete run: insert (1,10), (2,20), (3,30) into a fresh tree with both
release callbacks configured, then `remove(2)`.  The removal victim is the
in-order successor (key 3). -/
def runRemoveSucc : Option (RBTree × List RBEvent) :=
  bindT (insSeq (rb_tree_new_full true true) [1, 2, 3]) fun t => rb_tree_remove cmpI t 2 64

/-- Concrete run: insert 6, 5, 4, 3, 2, 1 into a fresh tree, then
`remove(6)`.  The deletion fixup enters the mirrored RED-sibling case and
calls `rb_tree_rotate_right` on the parent of the sentinel. -/
def runSentinel : Option (RBTree × List RBEvent) :=
  bindT (insSeq (rb_tree_new_full false false) [6, 5, 4, 3, 2, 1]) fun t =>
    rb_tree_remove cmpI t 6 64

/-- A one-node heap holding the pair (5, 7), with both release callbacks
configured: sentinel at index 0, the single BLACK root at index 1. -/
def oneNodeTree : RBTree :=
  { nodes := [nullNode, ⟨0, 0, 0, RBColor.black, 5, 7⟩],
    free_list := 0, root := 1, key_release := true, value_release := true }

/-- A three-node heap: BLACK root (2, 20) at index 1 with RED children
(1, 10) at index 2 and (3, 30) at index 3. -/
def threeNodeTree : RBTree :=
  { nodes := [nullNode, ⟨2, 3, 0, RBColor.black, 2, 20⟩,
              ⟨0, 0, 1, RBColor.red, 1, 10⟩, ⟨0, 0, 1, RBColor.red, 3, 30⟩],
    free_list := 0, root := 1, key_release := false, value_release := false }

/-- The abstraction of `threeNodeTree`. -/
def ftThree : FTree :=
  FTree.node (FTree.node FTree.nil 1 10 FTree.nil) 2 20 (FTree.node FTree.nil 3 30 FTree.nil)

/-- Reading after writing the heap. -/
theorem getNode_setNode (t : RBTree) (i : Nat) (n : RBNode) (j : Nat) :
    getNode (setNode t i n) j = if i = j ∧ j < t.nodes.length then n else getNode t j := by
  simp only [getNode, setNode, List.getD_eq_getElem?_getD, List.getElem?_set]
  by_cases hij : i = j
  · subst hij
    by_cases hlen : i < t.nodes.length
    · simp [hlen]
    · simp [hlen, List.getElem?_eq_none (by omega : t.nodes.length ≤ i)]
  · simp [hij, fun h : i = j ∧ j < t.nodes.length => hij h.1]

/-- Reading back an in-range write. -/
theorem getNode_setNode_self (t : RBTree) (i : Nat) (n : RBNode)
    (h : i < t.nodes.length) : getNode (setNode t i n) i = n := by
  rw [getNode_setNode]; simp [h]

/-- A write that keeps a node's child links keeps every node's child links. -/
theorem setNode_links (t : RBTree) (i : Nat) (nd : RBNode)
    (hl : nd.left = (getNode t i).left) (hr : nd.right = (getNode t i).right) (j : Nat) :
    (getNode (setNode t i nd) j).left = (getNode t j).left ∧
    (getNode (setNode t i nd) j).right = (getNode t j).right := by
  rw [getNode_setNode]
  split
  · rename_i hc
    obtain ⟨rfl, -⟩ := hc
    exact ⟨hl, hr⟩
  · exact ⟨rfl, rfl⟩

/-- `rb_tree_node_count` reads only child links. -/
theorem rb_tree_node_count_congr (t1 t2 : RBTree)
    (h : ∀ j, (getNode t1 j).left = (getNode t2 j).left ∧
              (getNode t1 j).right = (getNode t2 j).right) :
    ∀ (fuel i : Nat), rb_tree_node_count t1 i fuel = rb_tree_node_count t2 i fuel := by
  intro fuel
  induction fuel with
  | zero => intro i; rfl
  | succ n ih =>
    intro i
    simp only [rb_tree_node_count, (h i).1, (h i).2, ih]

/-- `rb_tree_size` reads only the root and the child links. -/
theorem rb_tree_size_congr (t1 t2 : RBTree) (hroot : t1.root = t2.root)
    (h : ∀ j, (getNode t1 j).left = (getNode t2 j).left ∧
              (getNode t1 j).right = (getNode t2 j).right) (fuel : Nat) :
    rb_tree_size t1 fuel = rb_tree_size t2 fuel := by
  simp only [rb_tree_size, hroot, rb_tree_node_count_congr t1 t2 h]

/-- How an early-exit visit splits over list concatenation. -/
theorem mapVisitList_append (f : Int → Int → Bool) (l1 l2 : List (Int × Int)) :
    mapVisitList f (l1 ++ l2) =
      if (mapVisitList f l1).1 then
        ((mapVisitList f l2).1, (mapVisitList f l1).2 ++ (mapVisitList f l2).2)
      else (false, (mapVisitList f l1).2) := by
  induction l1 with
  | nil => simp [mapVisitList]
  | cons p rest ih =>
    simp only [List.cons_append, mapVisitList]
    by_cases hp : f p.1 p.2
    · simp [hp, ih]
      split <;> simp
    · simp [hp]

/-- Abstracting the sentinel yields the empty tree. -/
theorem toFTree_null (t : RBTree) (n : Nat) (ft : FTree)
    (h : toFTree t rb_null n = some ft) : ft = FTree.nil := by
  cases n with
  | zero => cases h
  | succ m =>
    rw [toFTree] at h
    simp [rb_null] at h
    exact h.symm

/-- On any abstractable subtree, `rb_tree_node_map` returns exactly the
early-exit visit of the subtree's in-order pair list. -/
theorem rb_tree_node_map_abs (f : Int → Int → Bool) (t : RBTree) :
    ∀ (n i : Nat) (ft : FTree), i ≠ rb_null → toFTree t i n = some ft →
      rb_tree_node_map f t i n = some (mapVisitList f (inorderPairs ft)) := by
  intro n
  induction n with
  | zero => intro i ft _ h; cases h
  | succ m ih =>
    intro i ft hi h
    rw [toFTree, if_neg hi] at h
    cases hl : toFTree t (getNode t i).left m with
    | none => rw [hl] at h; cases h
    | some lft =>
      cases hr : toFTree t (getNode t i).right m with
      | none => rw [hl, hr] at h; cases h
      | some rft =>
        rw [hl, hr] at h
        replace h := Option.some_inj.mp h
        subst h
        rw [rb_tree_node_map]
        simp only [inorderPairs, mapVisitList_append, mapVisitList]
        by_cases hleft : (getNode t i).left = rb_null
        · rw [toFTree_null t m lft (hleft ▸ hl)]
          simp only [inorderPairs, mapVisitList,
            if_neg (by simp [hleft] : ¬(getNode t i).left ≠ rb_null)]
          by_cases hf : f (getNode t i).key (getNode t i).value
          · simp only [hf, if_true]
            by_cases hright : (getNode t i).right = rb_null
            · rw [toFTree_null t m rft (hright ▸ hr)]
              simp [hright, mapVisitList]
            · rw [if_pos hright, ih (getNode t i).right rft hright hr]
          · simp [hf, mapVisitList]
        · rw [if_pos hleft, ih (getNode t i).left lft hleft hl]
          rcases hmvL : mapVisitList f (inorderPairs lft) with ⟨bL, vsL⟩
          cases bL with
          | false => simp [hmvL]
          | true =>
            simp only [hmvL]
            by_cases hf : f (getNode t i).key (getNode t i).value
            · simp only [hf, if_true]
              by_cases hright : (getNode t i).right = rb_null
              · rw [toFTree_null t m rft (hright ▸ hr)]
                simp [hright, mapVisitList, hf]
              · rw [if_pos hright, ih (getNode t i).right rft hright hr]
            · simp [hf, mapVisitList]

/-- The visited pairs are an initial segment of the in-order list. -/
theorem mapVisitList_initial (f : Int → Int → Bool) :
    ∀ l : List (Int × Int), ∃ l2, (mapVisitList f l).2 ++ l2 = l := by
  intro l
  induction l with
  | nil => exact ⟨[], rfl⟩
  | cons p rest ih =>
    by_cases hp : f p.1 p.2
    · obtain ⟨l2, hl2⟩ := ih
      exact ⟨l2, by simp [mapVisitList, hp, hl2]⟩
    · exact ⟨rest, by simp [mapVisitList, hp]⟩

/-- Claim C1: after every successful public mutation the five red-black
invariants hold, among them that the (shared) sentinel is BLACK.  Refuted by
the code: after the successful mutations insert 6, 5, 4, 3, 2, 1 and then
remove(6), the sentinel node has been colored RED.  The deletion fixup
reaches the mirrored RED-sibling case, whose `rb_tree_rotate_right` (which
assigns `y->left = y->right`, i.e. the sentinel that replaced the removed
leaf) makes the sentinel the sibling `w`, after which `w->color = RED` paints
the sentinel. -/
theorem claim_c1 :
    (runSentinel.map fun p => (getNode p.1 rb_null).color) = some RBColor.red := by decide

/-- Claim C2: after any insert/remove interleaving, lookup(k) returns the
most recently stored value for k.  Refuted by the code: after insert (1,10),
(2,20), (3,30) and remove(2), lookup(3) returns 20 — the value that was
stored for key 2 — instead of 30, because `rb_tree_node_remove` copies only
the successor's key (not its value) onto the target node. -/
theorem claim_c2 :
    (runRemoveSucc.map fun p => rb_tree_lookup cmpI p.1 3 64) = some (some (some 20)) := by
  decide

/-- Claim C3: remove(key) invokes the release callbacks once each with the
payload of the pair logically removed (the target's prior key and value).
Refuted by the code: removing key 2 from the tree (1,10), (2,20), (3,30)
emits keyRelease 3 and valueRelease 30 — the successor's slot, whose key has
just been copied into the tree and stays live — instead of key 2's payload
(2 and 20). -/
theorem claim_c3 :
    (runRemoveSucc.map fun p => p.2) =
      some [RBEvent.keyRelease 3, RBEvent.valueRelease 30] := by decide

/-- Claim C4: with a two-child target, both the successor's key and value
are copied onto the target before the successor is spliced out.  Refuted by
the code: after removing key 2 from (1,10), (2,20), (3,30) the target node
(still the root) holds key 3 — the successor's key — but value 20, the
target's stale value; `rb_tree_node_remove` has no value copy next to the
`z->key = y->key` assignment. -/
theorem claim_c4 :
    (runRemoveSucc.map fun p => ((getNode p.1 p.1.root).key, (getNode p.1 p.1.root).value)) =
      some (3, 20) := by decide

/-- Claim C5: when the descent finds `key` at node `iter` (in range, with
both release callbacks configured), insert releases the incoming key and the
old value and stores the new value under the existing key identity, and
replace releases the old key and the old value and adopts both incoming
ones; either way the tree shape, and hence size(), is unchanged for every
fuel. -/
theorem claim_c5 (cmp : Int → Int → Int) (t : RBTree) (key value : Int) (fuel : Nat)
    (iter ip : Nat)
    (hloop : rb_tree_find_loop cmp t key fuel t.root rb_null = some (iter, ip, true))
    (hlt : iter < t.nodes.length)
    (hkr : t.key_release = true) (hvr : t.value_release = true) :
    (rb_tree_insert cmp t key value fuel =
       some (setNode t iter { getNode t iter with value := value },
             [RBEvent.keyRelease key, RBEvent.valueRelease (getNode t iter).value]) ∧
     (getNode (setNode t iter { getNode t iter with value := value }) iter).key =
       (getNode t iter).key ∧
     (getNode (setNode t iter { getNode t iter with value := value }) iter).value = value ∧
     (∀ n, rb_tree_size (setNode t iter { getNode t iter with value := value }) n =
        rb_tree_size t n)) ∧
    (rb_tree_replace cmp t key value fuel =
       some (setNode t iter { getNode t iter with key := key, value := value },
             [RBEvent.keyRelease (getNode t iter).key,
              RBEvent.valueRelease (getNode t iter).value]) ∧
     (getNode (setNode t iter { getNode t iter with key := key, value := value }) iter).key =
       key ∧
     (getNode (setNode t iter { getNode t iter with key := key, value := value }) iter).value =
       value ∧
     (∀ n, rb_tree_size (setNode t iter { getNode t iter with key := key, value := value }) n =
        rb_tree_size t n)) := by
  constructor
  · refine ⟨?_, ?_, ?_, ?_⟩
    · rw [rb_tree_insert, rb_tree_find, hloop]
      simp [hkr, hvr]
    · rw [getNode_setNode_self t iter _ hlt]
    · rw [getNode_setNode_self t iter _ hlt]
    · intro n
      exact rb_tree_size_congr (setNode t iter { getNode t iter with value := value }) t rfl
        (setNode_links t iter { getNode t iter with value := value } rfl rfl) n
  · refine ⟨?_, ?_, ?_, ?_⟩
    · rw [rb_tree_replace, rb_tree_find, hloop]
      simp [hkr, hvr]
    · rw [getNode_setNode_self t iter _ hlt]
    · rw [getNode_setNode_self t iter _ hlt]
    · intro n
      exact rb_tree_size_congr
        (setNode t iter { getNode t iter with key := key, value := value }) t rfl
        (setNode_links t iter { getNode t iter with key := key, value := value } rfl rfl) n

/-- Witness for claim C5 on a concrete one-node tree holding (5, 7):
inserting (5, 99) hits the found branch, releases incoming key 5 and old
value 7, and stores value 99 in place. -/
theorem claim_c5_witness :
    rb_tree_find_loop cmpI oneNodeTree 5 4 oneNodeTree.root rb_null = some (1, 1, true) ∧
    1 < oneNodeTree.nodes.length ∧
    rb_tree_insert cmpI oneNodeTree 5 99 4 =
      some (setNode oneNodeTree 1 { getNode oneNodeTree 1 with value := 99 },
            [RBEvent.keyRelease 5, RBEvent.valueRelease 7]) :=
  ⟨by decide, by decide,
   (claim_c5 cmpI oneNodeTree 5 99 4 1 1 (by decide) (by decide) rfl rfl).1.1⟩

/-- Claim C6: lookup_extended returns true exactly when the key is present
and then writes the stored key and value through the two out-pointers.
Refuted by the code: on the one-node tree holding (5, 7), calling it with a
null `orig_key` pointer but a valid `value` pointer returns true yet writes
nothing through `value`, because the guard of the value write (source line
600) erroneously tests `orig_key` again. -/
theorem claim_c6 :
    rb_tree_lookup_extended cmpI oneNodeTree 5 false true 8 = some (true, none, none) := by
  decide

/-- Claim C7: teardown releases children before the node and invokes
key_release with each node's key and value_release with each node's value.
Refuted by the code: releasing the one-node tree holding (5, 7) emits
valueRelease 5 — the key — because `rb_tree_node_release` (source line 151)
passes `node->key` to the value callback. -/
theorem claim_c7 :
    (rb_tree_release oneNodeTree 8).map (fun p => p.2) =
      some [RBEvent.keyRelease 5, RBEvent.valueRelease 5] := by decide

/-- Claim C8: map walks the tree in-order; on any abstractable tree whose
in-order key list is strictly ascending for the comparator, the visited
pairs are exactly the early-exit initial segment of the in-order pair list
(so nothing is visited after the visitor signals stop, and the remaining
subtrees are skipped), and the visited keys are strictly ascending. -/
theorem claim_c8 (cmp : Int → Int → Int) (f : Int → Int → Bool) (t : RBTree)
    (n : Nat) (ft : FTree)
    (habs : toFTree t t.root n = some ft)
    (hsorted : List.Chain' (fun a b : Int => cmp a b < 0) ((inorderPairs ft).map Prod.fst)) :
    rb_tree_map f t n = some (mapVisitList f (inorderPairs ft)).2 ∧
    List.Chain' (fun p q : Int × Int => cmp p.1 q.1 < 0)
      (mapVisitList f (inorderPairs ft)).2 := by
  constructor
  · rw [rb_tree_map]
    by_cases hroot : t.root = rb_null
    · rw [toFTree_null t n ft (hroot ▸ habs)]
      simp [hroot, mapVisitList]
    · rw [if_pos hroot, rb_tree_node_map_abs f t n t.root ft hroot habs]
      rfl
  · have hchain : List.Chain' (fun p q : Int × Int => cmp p.1 q.1 < 0) (inorderPairs ft) :=
      (List.chain'_map Prod.fst).mp hsorted
    obtain ⟨l2, hl2⟩ := mapVisitList_initial f (inorderPairs ft)
    rw [← hl2] at hchain
    exact hchain.left_of_append

/-- Witness for claim C8 on the concrete three-node tree (1,10),(2,20),(3,30)
with a visitor stopping at key 2: the visit log is (1,10),(2,20). -/
theorem claim_c8_witness :
    toFTree threeNodeTree threeNodeTree.root 8 = some ftThree ∧
    List.Chain' (fun a b : Int => cmpI a b < 0) ((inorderPairs ftThree).map Prod.fst) ∧
    rb_tree_map (fun k _ => decide (k < 2)) threeNodeTree 8 =
      some (mapVisitList (fun k _ => decide (k < 2)) (inorderPairs ftThree)).2 :=
  ⟨by decide, by simp [ftThree, inorderPairs, cmpI, List.chain'_cons],
   (claim_c8 cmpI (fun k _ => decide (k < 2)) threeNodeTree 8 ftThree
      (by decide) (by simp [ftThree, inorderPairs, cmpI, List.chain'_cons])).1⟩

/-- Claim C9: the lookup-only find (the engine behind lookup,
lookup_extended, remove-targeting and steal-targeting) returns the tree heap
unchanged and emits no release events, and remove/steal on an absent key
(find returned the sentinel) are no-ops emitting no events.  The embedded
size, height and map functions read the heap without returning one, as the C
functions never write. -/
theorem claim_c9 (cmp : Int → Int → Int) (t : RBTree) (key value : Int) (fuel : Nat)
    (t' : RBTree) (i : Nat) (ev : List RBEvent)
    (h : rb_tree_find cmp t key value false false fuel = some (t', i, ev)) :
    t' = t ∧ ev = [] ∧
    (i = rb_null →
      rb_tree_remove cmp t key fuel = some (t, []) ∧
      rb_tree_steal cmp t key fuel = some (t, [])) := by
  rw [rb_tree_find] at h
  cases hl : rb_tree_find_loop cmp t key fuel t.root rb_null with
  | none => rw [hl] at h; cases h
  | some res =>
    obtain ⟨iter, ip, found⟩ := res
    rw [hl] at h
    simp only [Bool.and_false, Bool.false_and, Bool.not_false, Bool.or_true,
      if_false, if_true, Bool.false_eq_true, ite_false, ite_true] at h
    rw [Option.some_inj, Prod.mk.injEq, Prod.mk.injEq] at h
    obtain ⟨rfl, rfl, rfl⟩ := h
    refine ⟨rfl, rfl, fun hi => ⟨?_, ?_⟩⟩
    · rw [rb_tree_remove, rb_tree_find, hl]
      simp [hi]
    · rw [rb_tree_steal, rb_tree_find, hl]
      simp [hi]

/-- Witness for claim C9: looking up key 5 in a fresh empty tree touches
nothing, and remove/steal of the absent key 5 are no-ops. -/
theorem claim_c9_witness :
    rb_tree_find cmpI rb_tree_new 5 0 false false 3 = some (rb_tree_new, rb_null, []) ∧
    rb_tree_remove cmpI rb_tree_new 5 3 = some (rb_tree_new, []) ∧
    rb_tree_steal cmpI rb_tree_new 5 3 = some (rb_tree_new, []) :=
  ⟨by decide,
   ((claim_c9 cmpI rb_tree_new 5 0 3 rb_tree_new rb_null [] (by decide)).2.2 rfl).1,
   ((claim_c9 cmpI rb_tree_new 5 0 3 rb_tree_new rb_null [] (by decide)).2.2 rfl).2⟩

/-- Claim C10: a freshly constructed tree is empty — its root is the
sentinel, size() and height() are 0, lookup of any key returns null, and map
invokes the visitor zero times; `rb_tree_new` and `rb_tree_new_with_data`
are `rb_tree_new_full` with no release callbacks. -/
theorem claim_c10 (kr vr : Bool) (cmp : Int → Int → Int) (k : Int)
    (f : Int → Int → Bool) (n : Nat) :
    (rb_tree_new_full kr vr).root = rb_null ∧
    rb_tree_size (rb_tree_new_full kr vr) n = some 0 ∧
    rb_tree_height (rb_tree_new_full kr vr) n = some 0 ∧
    rb_tree_lookup cmp (rb_tree_new_full kr vr) k (n + 1) = some none ∧
    rb_tree_map f (rb_tree_new_full kr vr) n = some [] ∧
    rb_tree_new = rb_tree_new_full false false ∧
    rb_tree_new_with_data = rb_tree_new_full false false := by
  refine ⟨rfl, ?_, ?_, ?_, ?_, rfl, rfl⟩ <;>
    simp [rb_tree_size, rb_tree_height, rb_tree_map, rb_tree_lookup, rb_tree_find,
      rb_tree_find_loop, rb_tree_new_full, rb_null]
